import Mathlib

/-!
Verification development for the `ankr-go` client library (`http_client.go`,
`types.go`, defaulting helpers).  The request execution core — `post`,
`postWithRetries`, the `Pages` pagination cursor, and the reflective
`ApplyDefaults` / `setFieldValue` defaulting pass — is shallowly embedded as
pure Lean functions.  Effectful collaborators (the rate limiter's `Acquire`,
`json.Marshal`, and the HTTP round trip) are modelled by an explicit
per-attempt environment describing the outcome of each effectful step, in the
order the Go code consults them.  Go panics are modelled by the `GoExec`
outcome type; Go `error` values are modelled by the `GoError` inductive whose
constructors record the exact construction site of each `fmt.Errorf` in the
source.
-/

namespace Ankr

/-- Outcome of running Go code that may panic: either a panic with its message,
or a normally returned value. -/
inductive GoExec (α : Type) where
  | panicked (msg : String)
  | value (a : α)
  deriving DecidableEq, Repr

/-- `RPCRespError` from `types.go`: the structured JSON-RPC error object
`{code, message, data}`.  The untyped `any` data payload is modelled as an
optional string. -/
structure RPCRespError where
  code : Int
  message : String
  data : Option String
  deriving DecidableEq, Repr

/-- The `fmt.Errorf("...: %w", err)` wrap sites inside `post`
(`src/http_client.go`), one per early-return branch that wraps an underlying
error. -/
inductive ErrSite where
  | rateLimit      -- "rate limit error: %w"
  | applyDefaults  -- "failed to apply defaults: %w"
  | marshal        -- "failed to marshal request: %w"
  | createRequest  -- "failed to create request: %w"
  | doRequest      -- "request failed: %w"
  | readBody       -- "failed to read response: %w"
  | parseResponse  -- "failed to parse response: %w"
  deriving DecidableEq, Repr

/-- Go `error` values produced by the execution core.  Each constructor models
one construction site in the source:
* `base` — an underlying error supplied by a collaborator (net/http, strconv,
  the rate limiter's internals);
* `ctxCanceled` — the `context.Canceled` sentinel delivered by a collaborator
  when the caller's context is cancelled;
* `rateLimitExceeded` — the `ErrRateLimitExceeded` sentinel returned by `post`
  when `Acquire` refuses admission (the sentinel itself lives with the rate
  limiter, outside `src/`; modelled from the spec as a distinguished value);
* `site s e` — `fmt.Errorf("<site text>: %w", e)` at wrap site `s` in `post`;
* `httpStatus c b` — `fmt.Errorf("HTTP error %d: %s", code, body)`;
* `rpc e` — `fmt.Errorf("ankr: rpc error: %+v", apiResponse.Error)`;
* `exhausted n e` / `exhaustedNil n` — `fmt.Errorf("ankr: failed to post after
  %d retries, last error: %w", retries, err)` with non-nil / nil `err`;
* `pagesExhausted` — `fmt.Errorf("ankr: Pages has no next func")`;
* `parseFail s` — a `strconv` parse failure on input `s` inside
  `setFieldValue`;
* `nonStruct` — `"opts must be a struct or pointer to struct"` from
  `ApplyDefaults`. -/
inductive GoError where
  | base (msg : String)
  | ctxCanceled
  | rateLimitExceeded
  | site (s : ErrSite) (inner : GoError)
  | httpStatus (code : Nat) (body : String)
  | rpc (e : RPCRespError)
  | exhausted (retries : Nat) (last : GoError)
  | exhaustedNil (retries : Nat)
  | pagesExhausted
  | parseFail (s : String)
  | nonStruct
  deriving DecidableEq, Repr

/-- `JSONRPC` constant from `types.go`. -/
def JSONRPC : String := "2.0"

/-- `RPCReqBody` from `types.go`: `{id, jsonrpc, method, params}`.  The Go
`Params any` field holds the (defaulted) typed request value, so the body is
parameterized by the request type. -/
structure RPCReqBody (Req : Type) where
  id : Int
  jsonrpc : String
  method : String
  params : Req
  deriving DecidableEq, Repr

/-- `RPCRespBody[Result]` from `types.go`: `{jsonrpc, id, result, error}`.
`error` is a `*RPCRespError`, a nil pointer being `none`. -/
structure RPCRespBody (Result : Type) where
  jsonrpc : String
  id : Int
  result : Result
  error : Option RPCRespError
  deriving DecidableEq, Repr

/-- The request body `post` builds: `RPCReqBody{ID: 1, JSONRPC: JSONRPC,
Method: method, Params: newParams}`. -/
def mkReqBody {Req : Type} (method : String) (params : Req) : RPCReqBody Req :=
  ⟨1, JSONRPC, method, params⟩

/-- Outcome of `client.rateLimiter.Acquire(ctx, 1, nil)` as observed by `post`:
the call can return an error (e.g. the caller's context was cancelled while
waiting), refuse admission (`acquired == false`), or grant a token. -/
inductive AcquireStep where
  | err (e : GoError)
  | refused
  | ok
  deriving DecidableEq, Repr

/-- Where one HTTP exchange of `post` stops, from `http.NewRequestWithContext`
through `json.Unmarshal`.  Each constructor corresponds to one early-return
branch of `post`; `envelope` is the fully parsed `RPCRespBody` of a 200
response. -/
inductive HttpStep (Resp : Type) where
  | createErr (e : GoError)
  | doErr (e : GoError)
  | readErr (e : GoError)
  | status (code : Nat) (body : String)
  | parseErr (e : GoError)
  | envelope (env : RPCRespBody Resp)
  deriving Repr

/-- Environment of one `post` call: the outcomes of its effectful steps, in
program order.  `http` observes the marshalled request body, so a scripted
backend can react to the page token the client sends. -/
structure AttemptEnv (Req Resp : Type) where
  acquire : AcquireStep
  marshal : Option GoError
  http : RPCReqBody Req → HttpStep Resp

/-- The triple returned by `post`: `(result Resp, isRPCError bool, err error)`.
All `Resp` instantiations in the repository are pointer types, so Go's
zero-value `result` on failure paths is modelled as `none`. -/
structure PostReturn (Resp : Type) where
  result : Option Resp
  isRPCError : Bool
  err : Option GoError
  deriving Repr

/-- `post` from `src/http_client.go` (lines 52–119), translated branch by
branch.  `appDef` is the `ApplyDefaults` collaborator (it may panic, which
aborts the call); `env` supplies the outcomes of the effectful steps.  The
function mirrors the source's control flow exactly: rate-limiter admission,
defaulting, marshalling, request creation, the HTTP round trip, body read,
status check, envelope parse, and finally the `apiResponse.Error != nil`
classification that sets `isRPCError`. -/
def post {Req Resp : Type} (appDef : Req → GoExec (Except GoError Req))
    (method : String) (params : Req) (env : AttemptEnv Req Resp) :
    GoExec (PostReturn Resp) :=
  match env.acquire with
  | .err e => .value ⟨none, false, some (.site .rateLimit e)⟩
  | .refused => .value ⟨none, false, some .rateLimitExceeded⟩
  | .ok =>
    match appDef params with
    | .panicked m => .panicked m
    | .value (.error e) => .value ⟨none, false, some (.site .applyDefaults e)⟩
    | .value (.ok newParams) =>
      match env.marshal with
      | some e => .value ⟨none, false, some (.site .marshal e)⟩
      | none =>
        match env.http (mkReqBody method newParams) with
        | .createErr e => .value ⟨none, false, some (.site .createRequest e)⟩
        | .doErr e => .value ⟨none, false, some (.site .doRequest e)⟩
        | .readErr e => .value ⟨none, false, some (.site .readBody e)⟩
        | .status code body => .value ⟨none, false, some (.httpStatus code body)⟩
        | .parseErr e => .value ⟨none, false, some (.site .parseResponse e)⟩
        | .envelope envl =>
          match envl.error with
          | some e => .value ⟨none, true, some (.rpc e)⟩
          | none => .value ⟨some envl.result, false, none⟩

/-- The pair returned by `postWithRetries`, plus `attempts`, a ghost counter of
how many times `post` was invoked (pure instrumentation; the `result` and
`err` components are exactly the Go return values). -/
structure RetriesReturn (Resp : Type) where
  result : Option Resp
  err : Option GoError
  attempts : Nat
  deriving Repr

/-- The `for range retries` loop of `postWithRetries`.  `total` is the
`retries` argument (used in the final wrap message), `remaining` the loop
iterations left, `i` the number of attempts already made, and `r`/`e` the
current values of the named return variables `result`/`err`.  When an attempt
returns `err == nil || isRPCError` the loop returns that attempt's values;
when the loop ends, `err` is wrapped as `"ankr: failed to post after %d
retries, last error: %w"`.  (The `slog.Error` log line and the fixed
`time.Sleep(time.Second)` between attempts have no effect on the returned
values and are not represented as state.) -/
def retryLoop {Req Resp : Type} (total : Nat)
    (appDef : Req → GoExec (Except GoError Req)) (method : String)
    (params : Req) (envs : Nat → AttemptEnv Req Resp) :
    Nat → Nat → Option Resp → Option GoError → GoExec (RetriesReturn Resp)
  | 0, i, r, e =>
    .value ⟨r, some (match e with
                     | some e0 => .exhausted total e0
                     | none => .exhaustedNil total), i⟩
  | remaining + 1, i, _r, _ =>
    match post appDef method params (envs i) with
    | .panicked m => .panicked m
    | .value pr =>
      if pr.err = none ∨ pr.isRPCError = true then
        .value ⟨pr.result, pr.err, i + 1⟩
      else
        retryLoop total appDef method params envs remaining (i + 1) pr.result pr.err

/-- `postWithRetries` from `src/http_client.go` (lines 121–135): runs `post`
up to `retries` times, stopping early on success or on an RPC error, and
otherwise returns the last error wrapped in the terminal "failed to post after
%d retries" error.  `envs i` is the environment of the `i`-th attempt
(0-based). -/
def postWithRetries {Req Resp : Type}
    (appDef : Req → GoExec (Except GoError Req)) (method : String)
    (params : Req) (envs : Nat → AttemptEnv Req Resp) (retries : Nat) :
    GoExec (RetriesReturn Resp) :=
  retryLoop retries appDef method params envs retries 0 none none

/-- The `reqData` / `respData` interfaces from `src/http_client.go` (lines
139–145): every paginated request type implements `setPageToken` (a pointer
method mutating its `PageToken` field, modelled as returning the updated
request value) and every paginated response type implements
`getNextPageToken`. -/
structure PageIface (Req Resp : Type) where
  setPageToken : Req → String → Req
  getNextPageToken : Resp → String

/-- The `Pages` cursor state from `src/http_client.go` (lines 161–172).  The
Go struct holds `hasNext` and the `next` closure produced by
`makeNextPageFunc`; that closure's only captured mutable state is the request
value `req` it threads the page token through, so the cursor state is the pair
`(hasNext, req)`.  The closure's behaviour (one `postWithRetries` call) is
abstracted as a `fetch : Req → Except GoError Resp` argument of `Pages.Next`:
`.ok resp` models `postWithRetries` returning `(resp, nil)` and `.error e`
models it returning `(zero value, e)`.  The `sync.RWMutex` serializes `Next`
calls, so the sequential small-step semantics below is the per-cursor
behaviour; `HasNext` is a pure read of `hasNext` under the read lock. -/
structure Pages (Req Resp : Type) where
  hasNext : Bool
  req : Req
  deriving DecidableEq, Repr

/-- `newPages` from `src/http_client.go` (lines 167–172): a fresh cursor with
`hasNext = true` holding the caller's request value. -/
def newPages {Req Resp : Type} (req : Req) : Pages Req Resp :=
  ⟨true, req⟩

/-- `HasNext` from `src/http_client.go` (lines 174–178): a pure read of the
exhaustion flag. -/
def Pages.HasNext {Req Resp : Type} (p : Pages Req Resp) : Bool :=
  p.hasNext

/-- What one `Next` call returns: `(newPage Page, err error)` plus the cursor
state after the call.  `page = none` models the zero-value page (all page
types are pointers) returned on the error paths. -/
structure NextReturn (Req Resp : Type) where
  page : Option Resp
  err : Option GoError
  state : Pages Req Resp
  deriving DecidableEq, Repr

/-- `Pages.Next` (lines 180–194) composed with the closure built by
`makeNextPageFunc` (lines 147–159), translated branch by branch:
* exhausted cursor: return `(zero, "ankr: Pages has no next func")`, state
  untouched;
* the closure calls `postWithRetries` (abstracted as `fetch p.req`); on error
  it returns `(resp, false, err)` without touching `req`, and `Next` returns
  before assigning `p.hasNext`, so the whole state is unchanged;
* on success, `hasNext := resp.getNextPageToken() != ""`; if a next page
  exists the token is stored into the request via `setPageToken`, and `Next`
  stores `hasNext` into the cursor. -/
def Pages.Next {Req Resp : Type} (iface : PageIface Req Resp)
    (fetch : Req → Except GoError Resp) (p : Pages Req Resp) :
    NextReturn Req Resp :=
  if p.hasNext = false then
    ⟨none, some .pagesExhausted, p⟩
  else
    match fetch p.req with
    | .error e => ⟨none, some e, p⟩
    | .ok resp =>
      let tok := iface.getNextPageToken resp
      if tok ≠ "" then
        ⟨some resp, none, ⟨true, iface.setPageToken p.req tok⟩⟩
      else
        ⟨some resp, none, ⟨false, p.req⟩⟩

/-- A sequence of `Next` calls: `fetches` supplies the executor outcome for
each successive call, and the fold returns the final cursor state. -/
def Pages.run {Req Resp : Type} (iface : PageIface Req Resp)
    (fetches : List (Req → Except GoError Resp)) (p : Pages Req Resp) :
    Pages Req Resp :=
  fetches.foldl (fun q f => (Pages.Next iface f q).state) p

/-- A Go field value as `reflect` sees it in `ApplyDefaults`/`setFieldValue`.
One constructor per `reflect.Kind` group the source distinguishes:
* `vstr` — `reflect.String`;
* `vint` — `reflect.Int` … `reflect.Int64` (the source parses and stores via
  `int64`, so the widths are merged; every tagged integer field in the
  repository is a small `int32`);
* `vuint` — `reflect.Uint` … `reflect.Uint64`;
* `vfloat num den` — `reflect.Float32`/`Float64`, the numeric value modelled
  exactly as the unreduced decimal fraction `num / den` (`den` a power of
  ten), which is zero iff `num = 0`;
* `vbool` — `reflect.Bool`;
* `vptrBool` — a `*bool` field (`reflect.Pointer` kind; this is the only
  pointer field type carrying a `default` tag in the repository, e.g.
  `NativeFirst`, `OnlyWhitelisted`, `DescOrder`, `IncludeTxs`), `none` = nil;
* `vother z` — any other kind (slices, nested structs, …), abstracted to its
  `IsZero()` bit `z`; no such field is both tagged and zero in the
  repository. -/
inductive GoValue where
  | vstr (s : String)
  | vint (n : Int)
  | vuint (n : Nat)
  | vfloat (num : Int) (den : Nat)
  | vbool (b : Bool)
  | vptrBool (o : Option Bool)
  | vother (isZeroBit : Bool)
  deriving DecidableEq, Repr

/-- `reflect.Value.IsZero()` on the modelled kinds. -/
def GoValue.isZero : GoValue → Bool
  | .vstr s => s = ""
  | .vint n => n = 0
  | .vuint n => n = 0
  | .vfloat num _ => num = 0
  | .vbool b => b = false
  | .vptrBool o => o = none
  | .vother z => z

/-- `reflect.Kind.String()` of the modelled kinds, as interpolated into the
panic message of `setFieldValue` (`reflect.Pointer` prints as `"ptr"`; the
merged numeric kinds never reach that branch). -/
def GoValue.kindName : GoValue → String
  | .vstr _ => "string"
  | .vint _ => "int"
  | .vuint _ => "uint"
  | .vfloat _ _ => "float64"
  | .vbool _ => "bool"
  | .vptrBool _ => "ptr"
  | .vother _ => "other"

/-- One struct field as `ApplyDefaults` traverses it: `canSet` is
`reflect.Value.CanSet()` (false for unexported fields), `tag` the value of the
`default` struct tag (`""` when absent), `value` the field's current value. -/
structure GoField where
  name : String
  canSet : Bool
  tag : String
  value : GoValue
  deriving DecidableEq, Repr

/-- Decimal digit run: non-empty and all ASCII digits. -/
def isDigits (cs : List Char) : Bool :=
  !cs.isEmpty && cs.all Char.isDigit

/-- Value of a decimal digit run. -/
def digitsVal (cs : List Char) : Nat :=
  cs.foldl (fun acc c => acc * 10 + (c.toNat - 48)) 0

/-- Strip the optional leading sign, returning (negative?, rest). -/
def splitSign : List Char → Bool × List Char
  | '+' :: cs => (false, cs)
  | '-' :: cs => (true, cs)
  | cs => (false, cs)

/-- `strconv.ParseInt(value, 10, 64)`: optional sign, a non-empty decimal
digit run, and the int64 range check. -/
def parseInt (s : String) : Except GoError Int :=
  let (neg, cs) := splitSign s.data
  if isDigits cs then
    let n : Int := if neg then -(digitsVal cs : Int) else (digitsVal cs : Int)
    if -(2 ^ 63) ≤ n ∧ n ≤ 2 ^ 63 - 1 then .ok n else .error (.parseFail s)
  else .error (.parseFail s)

/-- `strconv.ParseUint(value, 10, 64)`: a non-empty decimal digit run (no
sign) within the uint64 range. -/
def parseUint (s : String) : Except GoError Nat :=
  if isDigits s.data ∧ digitsVal s.data < 2 ^ 64 then .ok (digitsVal s.data)
  else .error (.parseFail s)

/-- `strconv.ParseBool(value)`: the twelve literals it accepts. -/
def parseBool (s : String) : Except GoError Bool :=
  if s = "1" ∨ s = "t" ∨ s = "T" ∨ s = "TRUE" ∨ s = "true" ∨ s = "True" then
    .ok true
  else if s = "0" ∨ s = "f" ∨ s = "F" ∨ s = "FALSE" ∨ s = "false" ∨ s = "False" then
    .ok false
  else .error (.parseFail s)

/-- The plain-decimal fragment of `strconv.ParseFloat(value, 64)`: optional
sign, integer digits, optional fractional digits, at least one digit in all.
(The full Go grammar also has exponents, hex floats and inf/NaN literals; no
`default` tag in the repository uses them.)  The value is returned exactly as
the decimal fraction numerator/denominator pair. -/
def parseFloat (s : String) : Except GoError (Int × Nat) :=
  let (neg, cs) := splitSign s.data
  let ip := cs.takeWhile Char.isDigit
  let rest := cs.dropWhile Char.isDigit
  let mk : Int → Nat → Except GoError (Int × Nat) :=
    fun num den => .ok (if neg then -num else num, den)
  match rest with
  | [] => if ip.isEmpty then .error (.parseFail s) else mk (digitsVal ip) 1
  | '.' :: fp =>
    if fp.all Char.isDigit ∧ ¬(ip.isEmpty ∧ fp.isEmpty) then
      mk (digitsVal ip * 10 ^ fp.length + digitsVal fp) (10 ^ fp.length)
    else .error (.parseFail s)
  | _ => .error (.parseFail s)

/-- `setFieldValue` from the defaulting helpers: sets a field from the tag
string per the field's kind; the `default:` branch of its `switch` panics with
`"ankr: setFieldValue: unsupported field type: <kind>"` for every kind it
does not handle — in particular for pointer fields. -/
def setFieldValue (field : GoValue) (value : String) :
    GoExec (Except GoError GoValue) :=
  match field with
  | .vstr _ => .value (.ok (.vstr value))
  | .vint _ =>
    match parseInt value with
    | .error e => .value (.error e)
    | .ok n => .value (.ok (.vint n))
  | .vuint _ =>
    match parseUint value with
    | .error e => .value (.error e)
    | .ok n => .value (.ok (.vuint n))
  | .vfloat _ _ =>
    match parseFloat value with
    | .error e => .value (.error e)
    | .ok q => .value (.ok (.vfloat q.1 q.2))
  | .vbool _ =>
    match parseBool value with
    | .error e => .value (.error e)
    | .ok b => .value (.ok (.vbool b))
  | .vptrBool _ =>
    .panicked ("ankr: setFieldValue: unsupported field type: " ++
      GoValue.kindName (.vptrBool none))
  | .vother z =>
    .panicked ("ankr: setFieldValue: unsupported field type: " ++
      GoValue.kindName (.vother z))

/-- The per-field step of `ApplyDefaults`'s loop: skip fields that cannot be
set, carry no `default` tag, or are already non-zero; otherwise set from the
tag (propagating a parse error or a panic). -/
def applyFieldDefault (f : GoField) : GoExec (Except GoError GoField) :=
  if f.canSet = false then .value (.ok f)
  else if f.tag = "" then .value (.ok f)
  else if f.value.isZero = false then .value (.ok f)
  else
    match setFieldValue f.value f.tag with
    | .panicked m => .panicked m
    | .value (.error e) => .value (.error e)
    | .value (.ok v) => .value (.ok { f with value := v })

/-- `ApplyDefaults`'s field loop over the struct's fields in declaration
order, stopping at the first error or panic. -/
def applyDefaultsFields : List GoField → GoExec (Except GoError (List GoField))
  | [] => .value (.ok [])
  | f :: fs =>
    match applyFieldDefault f with
    | .panicked m => .panicked m
    | .value (.error e) => .value (.error e)
    | .value (.ok f') =>
      match applyDefaultsFields fs with
      | .panicked m => .panicked m
      | .value (.error e) => .value (.error e)
      | .value (.ok fs') => .value (.ok (f' :: fs'))

/-- The argument of `ApplyDefaults` after the initial
`reflect.ValueOf`/`Elem()` normalization: a struct (given by its field list —
a struct value and a pointer to it behave identically, both yielding settable
fields) or a value of any non-struct kind. -/
inductive GoInput where
  | strukt (fields : List GoField)
  | nonStruct (v : GoValue)
  deriving DecidableEq, Repr

/-- `ApplyDefaults[T]` from the defaulting helpers: rejects non-struct
inputs with `"opts must be a struct or pointer to struct"`, and otherwise
walks the fields applying `default` tags to zero-valued settable fields. -/
def ApplyDefaults : GoInput → GoExec (Except GoError GoInput)
  | .nonStruct _ => .value (.error .nonStruct)
  | .strukt fs =>
    match applyDefaultsFields fs with
    | .panicked m => .panicked m
    | .value (.error e) => .value (.error e)
    | .value (.ok fs') => .value (.ok (.strukt fs'))

/-- `GetAccountBalanceRequest` from `types.go` (lines 1581–1603) as
`ApplyDefaults` sees it: six exported fields in declaration order, with
`default:"true"` tags on the two `*bool` fields `NativeFirst` and
`OnlyWhitelisted` and no `default` tag on the others. -/
def getAccountBalanceRequestFields (blockchain : String)
    (nativeFirst onlyWhitelisted : Option Bool) (pageSize : Int)
    (pageToken walletAddress : String) : List GoField :=
  [⟨"Blockchain", true, "", .vstr blockchain⟩,
   ⟨"NativeFirst", true, "true", .vptrBool nativeFirst⟩,
   ⟨"OnlyWhitelisted", true, "true", .vptrBool onlyWhitelisted⟩,
   ⟨"PageSize", true, "", .vint pageSize⟩,
   ⟨"PageToken", true, "", .vstr pageToken⟩,
   ⟨"WalletAddress", true, "", .vstr walletAddress⟩]





/-! ### Helper lemmas shared by the claims -/

/-- When `Acquire` grants a token, defaulting succeeds, marshalling succeeds
and the HTTP round trip parses to an envelope, `post` returns the envelope's
classification. -/
theorem post_envelope {Req Resp : Type} (appDef : Req → GoExec (Except GoError Req))
    (method : String) (params : Req) (env : AttemptEnv Req Resp) (q : Req)
    (envl : RPCRespBody Resp)
    (hacq : env.acquire = .ok) (hdef : appDef params = .value (.ok q))
    (hmar : env.marshal = none)
    (hhttp : env.http (mkReqBody method q) = .envelope envl) :
    post appDef method params env =
      .value (match envl.error with
              | some e => ⟨none, true, some (.rpc e)⟩
              | none => ⟨some envl.result, false, none⟩) := by
  unfold post
  rw [hacq, hdef, hmar]
  dsimp only
  rw [hhttp]
  dsimp only
  cases envl.error <;> rfl

/-- A failing `client.httpClient.Do` makes `post` return the wrapped
`"request failed: %w"` transport error. -/
theorem post_doErr {Req Resp : Type} (appDef : Req → GoExec (Except GoError Req))
    (method : String) (params : Req) (env : AttemptEnv Req Resp) (q : Req)
    (e : GoError)
    (hacq : env.acquire = .ok) (hdef : appDef params = .value (.ok q))
    (hmar : env.marshal = none)
    (hhttp : env.http (mkReqBody method q) = .doErr e) :
    post appDef method params env = .value ⟨none, false, some (.site .doRequest e)⟩ := by
  unfold post
  rw [hacq, hdef, hmar]
  dsimp only
  rw [hhttp]

/-- A rate-limiter admission refusal makes `post` return `ErrRateLimitExceeded`
before the defaulting, marshalling or network steps run. -/
theorem post_refused {Req Resp : Type} (appDef : Req → GoExec (Except GoError Req))
    (method : String) (params : Req) (env : AttemptEnv Req Resp)
    (hacq : env.acquire = .refused) :
    post appDef method params env = .value ⟨none, false, some .rateLimitExceeded⟩ := by
  unfold post
  rw [hacq]

/-- One retry-loop step that short-circuits: the attempt returned
`err == nil || isRPCError`. -/
theorem retryLoop_stop {Req Resp : Type} (total : Nat)
    (appDef : Req → GoExec (Except GoError Req)) (method : String) (params : Req)
    (envs : Nat → AttemptEnv Req Resp) (rem i : Nat) (r : Option Resp)
    (acc : Option GoError) (pr : PostReturn Resp)
    (hpost : post appDef method params (envs i) = .value pr)
    (hstop : pr.err = none ∨ pr.isRPCError = true) :
    retryLoop total appDef method params envs (rem + 1) i r acc =
      .value ⟨pr.result, pr.err, i + 1⟩ := by
  simp [retryLoop, hpost, hstop]

/-- One retry-loop step that continues: the attempt failed with a non-RPC
error. -/
theorem retryLoop_continue {Req Resp : Type} (total : Nat)
    (appDef : Req → GoExec (Except GoError Req)) (method : String) (params : Req)
    (envs : Nat → AttemptEnv Req Resp) (rem i : Nat) (r : Option Resp)
    (acc : Option GoError) (res : Option Resp) (e0 : GoError)
    (hpost : post appDef method params (envs i) = .value ⟨res, false, some e0⟩) :
    retryLoop total appDef method params envs (rem + 1) i r acc =
      retryLoop total appDef method params envs rem (i + 1) res (some e0) := by
  simp [retryLoop, hpost]

/-- If every remaining attempt fails with a non-RPC error, the loop runs them
all and wraps the last error in the terminal "failed to post after %d retries"
error. -/
theorem retryLoop_all_fail {Req Resp : Type} (total : Nat)
    (appDef : Req → GoExec (Except GoError Req)) (method : String) (params : Req)
    (envs : Nat → AttemptEnv Req Resp) (e : Nat → GoError) :
    ∀ (m i : Nat) (r : Option Resp) (acc : Option GoError),
      (∀ j, j < m + 1 → post appDef method params (envs (i + j)) =
        .value ⟨none, false, some (e (i + j))⟩) →
      retryLoop total appDef method params envs (m + 1) i r acc =
        .value ⟨none, some (.exhausted total (e (i + m))), i + m + 1⟩ := by
  intro m
  induction m with
  | zero =>
    intro i r acc h
    have h0 := h 0 (by omega)
    simp only [Nat.add_zero] at h0
    rw [retryLoop_continue total appDef method params envs 0 i r acc none (e i) h0]
    simp [retryLoop]
  | succ m ih =>
    intro i r acc h
    have h0 := h 0 (by omega)
    simp only [Nat.add_zero] at h0
    rw [retryLoop_continue total appDef method params envs (m + 1) i r acc none (e i) h0]
    have hrest : ∀ j, j < m + 1 → post appDef method params (envs (i + 1 + j)) =
        .value ⟨none, false, some (e (i + 1 + j))⟩ := by
      intro j hj
      have := h (j + 1) (by omega)
      have hidx : i + (j + 1) = i + 1 + j := by omega
      rwa [hidx] at this
    have := ih (i + 1) none (some (e i)) hrest
    rw [this]
    have hidx1 : i + 1 + m = i + (m + 1) := by omega
    rw [hidx1]

/-- A `Next` call on an exhausted cursor changes nothing and reports
`"ankr: Pages has no next func"` with the zero-value page. -/
theorem next_exhausted {Req Resp : Type} (iface : PageIface Req Resp)
    (fetch : Req → Except GoError Resp) (p : Pages Req Resp)
    (h : p.hasNext = false) :
    Pages.Next iface fetch p = ⟨none, some .pagesExhausted, p⟩ := by
  unfold Pages.Next
  rw [h]
  simp

/-! ### Concrete instances used by witnesses and counterexamples -/

/-- A defaulting collaborator that leaves the request unchanged (the behaviour
of `ApplyDefaults` on a struct having no zero-valued tagged field). -/
def idDefaults {Req : Type} : Req → GoExec (Except GoError Req) :=
  fun r => .value (.ok r)

/-- An environment whose rate limiter refuses admission (Error-mode limiter
with an empty bucket). -/
def refusedEnv : AttemptEnv Unit Unit :=
  ⟨.refused, none, fun _ => .envelope ⟨JSONRPC, 1, (), none⟩⟩

/-- An environment whose HTTP exchange parses to an envelope carrying a
JSON-RPC error object. -/
def rpcErrEnv : AttemptEnv Unit Unit :=
  ⟨.ok, none, fun _ => .envelope ⟨JSONRPC, 1, (), some ⟨-32600, "invalid request", none⟩⟩⟩

/-- An environment whose `Do` call fails with a network error (an
always-failing transport). -/
def failingTransportEnv : AttemptEnv Unit Unit :=
  ⟨.ok, none, fun _ => .doErr (.base "connection refused")⟩

/-- An environment whose `Do` call reports the caller's cancellation: the
context was cancelled during the retry loop. -/
def cancelledEnv : AttemptEnv Unit Unit :=
  ⟨.ok, none, fun _ => .doErr .ctxCanceled⟩

/-! ### Claims about the request executor -/

/-- C1: for every call whose HTTP exchange succeeds (admission granted,
defaulting and marshalling succeed, status 200, envelope parsed) but whose
response envelope carries a non-nil `error` field, `post` classifies the
outcome as an RPC error (`isRPCError = true`) and `postWithRetries` returns
that protocol error to the caller on the first attempt, performing exactly
zero further retry attempts, for every retry bound of at least 1. -/
theorem rpc_error_returned_on_first_attempt {Req Resp : Type}
    (appDef : Req → GoExec (Except GoError Req)) (method : String)
    (params : Req) (envs : Nat → AttemptEnv Req Resp) (retries : Nat) (q : Req)
    (envl : RPCRespBody Resp) (e : RPCRespError)
    (hretries : 1 ≤ retries)
    (hacq : (envs 0).acquire = .ok)
    (hdef : appDef params = .value (.ok q))
    (hmar : (envs 0).marshal = none)
    (hhttp : (envs 0).http (mkReqBody method q) = .envelope envl)
    (herr : envl.error = some e) :
    post appDef method params (envs 0) = .value ⟨none, true, some (.rpc e)⟩ ∧
    postWithRetries appDef method params envs retries =
      .value ⟨none, some (.rpc e), 1⟩ := by
  have hpost : post appDef method params (envs 0) =
      .value ⟨none, true, some (.rpc e)⟩ := by
    rw [post_envelope appDef method params (envs 0) q envl hacq hdef hmar hhttp, herr]
  refine ⟨hpost, ?_⟩
  obtain ⟨n, rfl⟩ : ∃ n, retries = n + 1 := ⟨retries - 1, by omega⟩
  unfold postWithRetries
  rw [retryLoop_stop (n + 1) appDef method params envs n 0 none none _ hpost
    (Or.inr rfl)]

/-- C1 witness: a concrete RPC-error response under a three-attempt bound
yields the protocol error after exactly one attempt. -/
theorem rpc_error_returned_on_first_attempt_witness :
    postWithRetries idDefaults "ankr_getCurrencies" () (fun _ => rpcErrEnv) 3 =
      .value ⟨none, some (.rpc ⟨-32600, "invalid request", none⟩), 1⟩ :=
  (rpc_error_returned_on_first_attempt idDefaults "ankr_getCurrencies" ()
    (fun _ => rpcErrEnv) 3 () ⟨JSONRPC, 1, (), some ⟨-32600, "invalid request", none⟩⟩
    ⟨-32600, "invalid request", none⟩ (by omega) rfl rfl rfl rfl rfl).2

/-- C2 counterexample: with an Error-mode rate limiter refusing admission on
every attempt, `postWithRetries` with bound 3 performs all 3 attempts and
returns `ErrRateLimitExceeded` wrapped in the terminal retries error — the
admission refusal is retried, contradicting the claim that a non-transport
failure is returned with no further attempt. -/
theorem rate_limit_refusal_is_retried :
    postWithRetries idDefaults "ankr_getTokenPrice" () (fun _ => refusedEnv) 3 =
      .value ⟨none, some (.exhausted 3 .rateLimitExceeded), 3⟩ := rfl

/-- C2 (amended): `post` itself returns `ErrRateLimitExceeded` without
attempting the network call, but the retry loop of `postWithRetries` retries
every failure that is not an RPC error — including rate-limiter admission
refusals: when every attempt is refused admission, all `retries` attempts are
performed and the refusal comes back wrapped in the terminal retries error. -/
theorem rate_limit_refusals_retried_until_bound {Req Resp : Type}
    (appDef : Req → GoExec (Except GoError Req)) (method : String)
    (params : Req) (envs : Nat → AttemptEnv Req Resp) (retries : Nat)
    (hretries : 1 ≤ retries)
    (href : ∀ i, i < retries → (envs i).acquire = .refused) :
    (∀ env : AttemptEnv Req Resp, env.acquire = .refused →
      post appDef method params env =
        .value ⟨none, false, some .rateLimitExceeded⟩) ∧
    postWithRetries appDef method params envs retries =
      .value ⟨none, some (.exhausted retries .rateLimitExceeded), retries⟩ := by
  refine ⟨fun env h => post_refused appDef method params env h, ?_⟩
  obtain ⟨m, rfl⟩ : ∃ m, retries = m + 1 := ⟨retries - 1, by omega⟩
  unfold postWithRetries
  have hall := retryLoop_all_fail (m + 1) appDef method params envs
    (fun _ => .rateLimitExceeded) m 0 none none
    (fun j hj => post_refused appDef method params (envs (0 + j))
      (href (0 + j) (by omega)))
  simpa using hall

/-- C2 witness: two refused attempts under bound 2 exhaust the loop. -/
theorem rate_limit_refusals_retried_until_bound_witness :
    postWithRetries idDefaults "ankr_getTokenPrice" () (fun _ => refusedEnv) 2 =
      .value ⟨none, some (.exhausted 2 .rateLimitExceeded), 2⟩ :=
  (rate_limit_refusals_retried_until_bound idDefaults "ankr_getTokenPrice" ()
    (fun _ => refusedEnv) 2 (by omega) (fun _ _ => rfl)).2

/-- C3: against a transport whose `Do` call fails on every attempt, with retry
count 3, `postWithRetries` performs exactly 3 attempts (each invoking `post`
once) and returns the terminal "failed to post after 3 retries" error wrapping
the last attempt's transport error. -/
theorem always_failing_transport_three_attempts {Req Resp : Type}
    (appDef : Req → GoExec (Except GoError Req)) (method : String)
    (params : Req) (envs : Nat → AttemptEnv Req Resp) (q : Req)
    (e : Nat → GoError)
    (hdef : appDef params = .value (.ok q))
    (henv : ∀ i, i < 3 → (envs i).acquire = .ok ∧ (envs i).marshal = none ∧
      (envs i).http (mkReqBody method q) = .doErr (e i)) :
    postWithRetries appDef method params envs 3 =
      .value ⟨none, some (.exhausted 3 (.site .doRequest (e 2))), 3⟩ := by
  unfold postWithRetries
  have hall := retryLoop_all_fail 3 appDef method params envs
    (fun i => .site .doRequest (e i)) 2 0 none none ?_
  · simpa using hall
  · intro j hj
    obtain ⟨h1, h2, h3⟩ := henv (0 + j) (by omega)
    exact post_doErr appDef method params (envs (0 + j)) q (e (0 + j)) h1 hdef h2 h3

/-- C3 witness: a concrete always-failing transport exhausts exactly 3
attempts. -/
theorem always_failing_transport_three_attempts_witness :
    postWithRetries idDefaults "ankr_getBlocks" () (fun _ => failingTransportEnv) 3 =
      .value ⟨none,
        some (.exhausted 3 (.site .doRequest (.base "connection refused"))), 3⟩ :=
  always_failing_transport_three_attempts idDefaults "ankr_getBlocks" ()
    (fun _ => failingTransportEnv) () (fun _ => .base "connection refused") rfl
    (fun _ _ => ⟨rfl, rfl, rfl⟩)

/-- C8 counterexample: with the caller's context cancelled from the first
attempt on (every `Do` call reports `context.Canceled`), the retry loop still
performs all 3 attempts and runs to completion, returning the terminal retries
wrapper — cancellation does not stop further attempts. -/
theorem cancellation_does_not_stop_retry_loop :
    postWithRetries idDefaults "ankr_getBlocks" () (fun _ => cancelledEnv) 3 =
      .value ⟨none, some (.exhausted 3 (.site .doRequest .ctxCanceled)), 3⟩ := rfl

/-- C8 (amended): the retry loop does not observe the caller's cancellation
signal: a cancellation-induced failure is treated like any other non-RPC
failure (and the fixed `time.Sleep(time.Second)` back-off runs
unconditionally), so when every attempt fails with the caller's cancellation
the loop performs all `retries` attempts, completes, and returns the terminal
retries wrapper around the cancellation error. -/
theorem cancellation_failures_complete_retry_loop {Req Resp : Type}
    (appDef : Req → GoExec (Except GoError Req)) (method : String)
    (params : Req) (envs : Nat → AttemptEnv Req Resp) (retries : Nat) (q : Req)
    (hretries : 1 ≤ retries)
    (hdef : appDef params = .value (.ok q))
    (henv : ∀ i, i < retries → (envs i).acquire = .ok ∧ (envs i).marshal = none ∧
      (envs i).http (mkReqBody method q) = .doErr .ctxCanceled) :
    postWithRetries appDef method params envs retries =
      .value ⟨none, some (.exhausted retries (.site .doRequest .ctxCanceled)),
        retries⟩ := by
  obtain ⟨m, rfl⟩ : ∃ m, retries = m + 1 := ⟨retries - 1, by omega⟩
  unfold postWithRetries
  have hall := retryLoop_all_fail (m + 1) appDef method params envs
    (fun _ => .site .doRequest .ctxCanceled) m 0 none none ?_
  · simpa using hall
  · intro j hj
    obtain ⟨h1, h2, h3⟩ := henv (0 + j) (by omega)
    exact post_doErr appDef method params (envs (0 + j)) q .ctxCanceled h1 hdef h2 h3

/-- C8 witness: two cancelled attempts under bound 2 still complete the
loop. -/
theorem cancellation_failures_complete_retry_loop_witness :
    postWithRetries idDefaults "ankr_getBlocks" () (fun _ => cancelledEnv) 2 =
      .value ⟨none, some (.exhausted 2 (.site .doRequest .ctxCanceled)), 2⟩ :=
  cancellation_failures_complete_retry_loop idDefaults "ankr_getBlocks" ()
    (fun _ => cancelledEnv) 2 () (by omega) rfl (fun _ _ => ⟨rfl, rfl, rfl⟩)

/-! ### Claims about the pagination cursor -/

/-- The interface instance of the concrete scripted cursor used by the
pagination witnesses: the request value is its `PageToken` string, the
response value is its `NextPageToken` string. -/
def tokenIface : PageIface String String :=
  ⟨fun _ tok => tok, fun r => r⟩

/-- A scripted backend call: succeeds with next-page token `respTok` when the
incoming request carries page token `expectTok`, and fails otherwise — so a
successful run certifies that the cursor sent the expected token. -/
def scriptedFetch (expectTok respTok : String) : String → Except GoError String :=
  fun req => if req = expectTok then .ok respTok else .error (.base "unexpected page token")

/-- An executor outcome that fails with the terminal retries error, as
`postWithRetries` reports after an always-failing page fetch. -/
def failedFetch : String → Except GoError String :=
  fun _ => .error (.exhausted 3 (.site .doRequest (.base "connection refused")))

/-- C4: a failing `Next` call on a cursor in state HasMore leaves the cursor
exactly as it was — the exhaustion flag stays HasMore and the stored
continuation token in the request value is unchanged — and it returns the
failure with the zero-value page; consequently an immediately following
`Next` call runs against the same request token as the failed attempt. -/
theorem next_failure_preserves_cursor {Req Resp : Type}
    (iface : PageIface Req Resp) (fetch : Req → Except GoError Resp)
    (p : Pages Req Resp) (e : GoError)
    (hmore : p.hasNext = true) (hfail : fetch p.req = .error e) :
    Pages.Next iface fetch p = ⟨none, some e, p⟩ ∧
    (∀ fetch2 : Req → Except GoError Resp,
      Pages.Next iface fetch2 (Pages.Next iface fetch p).state =
        Pages.Next iface fetch2 p) := by
  have h1 : Pages.Next iface fetch p = ⟨none, some e, p⟩ := by
    unfold Pages.Next
    rw [hmore]
    simp [hfail]
  exact ⟨h1, fun fetch2 => by rw [h1]⟩

/-- C4 witness: a failed fetch of page 2 leaves the cursor holding token "A"
with HasMore, and the retried call (same token "A") succeeds. -/
theorem next_failure_preserves_cursor_witness :
    Pages.Next tokenIface failedFetch (⟨true, "A"⟩ : Pages String String) =
      ⟨none, some (.exhausted 3 (.site .doRequest (.base "connection refused"))),
        ⟨true, "A"⟩⟩ ∧
    Pages.Next tokenIface (scriptedFetch "A" "B")
        (Pages.Next tokenIface failedFetch (⟨true, "A"⟩ : Pages String String)).state =
      ⟨some "B", none, ⟨true, "B"⟩⟩ := by
  have h := next_failure_preserves_cursor tokenIface failedFetch
    (⟨true, "A"⟩ : Pages String String)
    (.exhausted 3 (.site .doRequest (.base "connection refused"))) rfl rfl
  refine ⟨h.1, ?_⟩
  rw [h.2 (scriptedFetch "A" "B")]
  rfl

/-- C5: a successful `Next` call on a cursor in state HasMore returns the page
in both cases; when the response's next-page token is empty the cursor
transitions to Exhausted with the request untouched, and when it is non-empty
the token is stored into the request's continuation field and the cursor
remains HasMore — so a scripted backend answering with tokens "A", "B", "C",
"" yields one successful `Next` per page and then reports no next page (see
the witness for the concrete four-page run). -/
theorem next_success_transition {Req Resp : Type}
    (iface : PageIface Req Resp) (fetch : Req → Except GoError Resp)
    (p : Pages Req Resp) (resp : Resp)
    (hmore : p.hasNext = true) (hok : fetch p.req = .ok resp) :
    (iface.getNextPageToken resp = "" →
      Pages.Next iface fetch p = ⟨some resp, none, ⟨false, p.req⟩⟩) ∧
    (iface.getNextPageToken resp ≠ "" →
      Pages.Next iface fetch p =
        ⟨some resp, none,
          ⟨true, iface.setPageToken p.req (iface.getNextPageToken resp)⟩⟩) := by
  constructor
  · intro htok
    unfold Pages.Next
    rw [hmore]
    simp [hok, htok]
  · intro htok
    unfold Pages.Next
    rw [hmore]
    simp [hok, htok]

/-- C5 witness: the scripted backend with successive next-page tokens "A",
"B", "C", "" yields exactly 4 successful `Next` calls — each sent with the
token stored by the previous call, certified by the scripted backend — after
which `HasNext` reports false. -/
theorem next_success_transition_witness :
    Pages.Next tokenIface (scriptedFetch "" "A") (newPages "") =
      ⟨some "A", none, ⟨true, "A"⟩⟩ ∧
    Pages.Next tokenIface (scriptedFetch "A" "B") (⟨true, "A"⟩ : Pages String String) =
      ⟨some "B", none, ⟨true, "B"⟩⟩ ∧
    Pages.Next tokenIface (scriptedFetch "B" "C") (⟨true, "B"⟩ : Pages String String) =
      ⟨some "C", none, ⟨true, "C"⟩⟩ ∧
    Pages.Next tokenIface (scriptedFetch "C" "") (⟨true, "C"⟩ : Pages String String) =
      ⟨some "", none, ⟨false, "C"⟩⟩ ∧
    Pages.HasNext (⟨false, "C"⟩ : Pages String String) = false := by
  refine ⟨?_, rfl, rfl, ?_, rfl⟩
  · exact (next_success_transition tokenIface (scriptedFetch "" "A") (newPages "")
      "A" rfl rfl).2 (by decide)
  · exact (next_success_transition tokenIface (scriptedFetch "C" "")
      (⟨true, "C"⟩ : Pages String String) "" rfl rfl).1 rfl

/-- C6: the exhaustion flag of a fresh cursor starts at HasMore
(`hasNext = true`), and once it is Exhausted (`hasNext = false`) it is
permanent: no sequence of further `Next` calls — with any executor outcomes —
ever resets it to HasMore (`HasNext` is a pure read and mutates nothing). -/
theorem exhaustion_flag_permanent {Req Resp : Type} :
    (∀ req : Req, (newPages req : Pages Req Resp).hasNext = true) ∧
    (∀ (iface : PageIface Req Resp)
       (fetches : List (Req → Except GoError Resp)) (p : Pages Req Resp),
      p.hasNext = false → (Pages.run iface fetches p).hasNext = false) := by
  refine ⟨fun _ => rfl, fun iface fetches => ?_⟩
  induction fetches with
  | nil => intro p h; exact h
  | cons f fs ih =>
    intro p h
    have hstep := next_exhausted iface f p h
    show (Pages.run iface fs (Pages.Next iface f p).state).hasNext = false
    rw [hstep]
    exact ih p h

/-- C6 witness: an exhausted cursor stays exhausted across two further `Next`
calls whose backends would otherwise succeed. -/
theorem exhaustion_flag_permanent_witness :
    (newPages "" : Pages String String).hasNext = true ∧
    (Pages.run tokenIface [scriptedFetch "C" "D", scriptedFetch "D" "E"]
      (⟨false, "C"⟩ : Pages String String)).hasNext = false :=
  ⟨(@exhaustion_flag_permanent String String).1 "",
   (@exhaustion_flag_permanent String String).2 tokenIface
     [scriptedFetch "C" "D", scriptedFetch "D" "E"]
     (⟨false, "C"⟩ : Pages String String) rfl⟩

/-- C7: a `Next` call on a cursor in state Exhausted returns an error
(`"ankr: Pages has no next func"`) and the zero-value page — the exhausted
case is reported as an error, never silently ignored or satisfied with a
stale page — and the cursor is untouched. -/
theorem next_on_exhausted_is_error {Req Resp : Type}
    (iface : PageIface Req Resp) (fetch : Req → Except GoError Resp)
    (p : Pages Req Resp) (h : p.hasNext = false) :
    Pages.Next iface fetch p = ⟨none, some .pagesExhausted, p⟩ :=
  next_exhausted iface fetch p h

/-- C7 witness: a 5th `Next` call after the scripted run of the C5 witness is
rejected with the exhausted-cursor error and no page. -/
theorem next_on_exhausted_is_error_witness :
    Pages.Next tokenIface (scriptedFetch "C" "D")
        (⟨false, "C"⟩ : Pages String String) =
      ⟨none, some .pagesExhausted, ⟨false, "C"⟩⟩ :=
  next_on_exhausted_is_error tokenIface (scriptedFetch "C" "D")
    (⟨false, "C"⟩ : Pages String String) rfl

/-! ### Claims about the defaulting pass -/

/-- The per-field transform the (amended) defaulting contract describes,
branch-for-branch parallel to `applyFieldDefault`: an unexported, untagged or
non-zero field is left unchanged, and a settable zero-valued tagged field of a
supported kind whose tag parses is replaced by the parsed tag value. -/
def fillField (f : GoField) : GoField :=
  if f.canSet = false then f
  else if f.tag = "" then f
  else if f.value.isZero = false then f
  else
    match setFieldValue f.value f.tag with
    | .value (.ok v) => { f with value := v }
    | _ => f

/-- A field that is unexported, untagged, or already non-zero is skipped
unchanged by the defaulting loop. -/
theorem applyFieldDefault_ok (f : GoField)
    (h : f.canSet = true → f.tag ≠ "" → f.value.isZero = true →
      ∃ v, setFieldValue f.value f.tag = .value (.ok v)) :
    applyFieldDefault f = .value (.ok (fillField f)) := by
  unfold applyFieldDefault fillField
  by_cases h1 : f.canSet = false
  · simp [h1]
  · rw [if_neg h1, if_neg h1]
    by_cases h2 : f.tag = ""
    · simp [h2]
    · rw [if_neg h2, if_neg h2]
      by_cases h3 : f.value.isZero = false
      · simp [h3]
      · rw [if_neg h3, if_neg h3]
        have hc : f.canSet = true := by
          cases hb : f.canSet
          · exact absurd hb h1
          · rfl
        have hz : f.value.isZero = true := by
          cases hb : f.value.isZero
          · exact absurd hb h3
          · rfl
        obtain ⟨v, hv⟩ := h hc h2 hz
        rw [hv]

/-- The defaulting loop over a field list where every zero-valued tagged
settable field has a supported kind and a parsable tag returns the list with
exactly those fields filled. -/
theorem applyDefaultsFields_ok (fs : List GoField)
    (h : ∀ f ∈ fs, f.canSet = true → f.tag ≠ "" → f.value.isZero = true →
      ∃ v, setFieldValue f.value f.tag = .value (.ok v)) :
    applyDefaultsFields fs = .value (.ok (fs.map fillField)) := by
  induction fs with
  | nil => rfl
  | cons f fs ih =>
    have hf := applyFieldDefault_ok f (h f (List.mem_cons_self f fs))
    have hrest := ih (fun g hg => h g (List.mem_cons_of_mem f hg))
    show (match applyFieldDefault f with
          | GoExec.panicked m => GoExec.panicked m
          | GoExec.value (Except.error e) => GoExec.value (Except.error e)
          | GoExec.value (Except.ok f') =>
            match applyDefaultsFields fs with
            | GoExec.panicked m => GoExec.panicked m
            | GoExec.value (Except.error e) => GoExec.value (Except.error e)
            | GoExec.value (Except.ok fs') => GoExec.value (Except.ok (f' :: fs'))) =
      GoExec.value (Except.ok ((f :: fs).map fillField))
    rw [hf, hrest]
    rfl

/-- C9 counterexample: on the zero value of `GetAccountBalanceRequest` — a
request type reachable through the public `GetAccountBalances` API —
`ApplyDefaults` panics in `setFieldValue`'s unsupported-kind branch at the
nil `*bool` field `NativeFirst` (tagged `default:"true"`), so it is not a
pure transform returning a request value or an error. -/
theorem applyDefaults_panics_on_account_balance_request :
    ApplyDefaults (.strukt (getAccountBalanceRequestFields "eth" none none 0 ""
      "0xd8dA6BF26964aF9D7eEd9e03E53415D37aA96045")) =
      .panicked "ankr: setFieldValue: unsupported field type: ptr" := rfl

/-- C9 (amended): for every struct (or pointer-to-struct) request value whose
zero-valued, `default`-tagged, settable fields all have supported scalar kinds
(string, int, uint, float, bool) with tags that parse at those kinds,
`ApplyDefaults` fills exactly those fields with the tag's parsed value, leaves
every field that is already non-zero, untagged or unexported unchanged, and
returns the resulting request value; a non-struct input yields an error.
(Zero-valued tagged fields of unsupported kinds — e.g. nil pointers — make it
panic instead; see the counterexample.) -/
theorem applyDefaults_fills_zero_tagged_supported_fields (fs : List GoField)
    (h : ∀ f ∈ fs, f.canSet = true → f.tag ≠ "" → f.value.isZero = true →
      ∃ v, setFieldValue f.value f.tag = .value (.ok v)) :
    ApplyDefaults (.strukt fs) = .value (.ok (.strukt (fs.map fillField))) ∧
    (∀ v : GoValue, ApplyDefaults (.nonStruct v) = .value (.error .nonStruct)) := by
  refine ⟨?_, fun _ => rfl⟩
  show (match applyDefaultsFields fs with
        | GoExec.panicked m => GoExec.panicked m
        | GoExec.value (Except.error e) => GoExec.value (Except.error e)
        | GoExec.value (Except.ok fs') => GoExec.value (Except.ok (GoInput.strukt fs'))) =
    GoExec.value (Except.ok (GoInput.strukt (fs.map fillField)))
  rw [applyDefaultsFields_ok fs h]

/-- The struct of the repository's `TestApplyDefaults` test: four zero-valued
fields with `default` tags `"test"`, `"10"`, `"true"`, `"3.14"` at kinds
string, int, bool, float64. -/
def testStructFields : List GoField :=
  [⟨"Field1", true, "test", .vstr ""⟩,
   ⟨"Field2", true, "10", .vint 0⟩,
   ⟨"Field3", true, "true", .vbool false⟩,
   ⟨"Field4", true, "3.14", .vfloat 0 1⟩]

/-- C9 witness: on the `TestApplyDefaults` struct every tagged zero field is
filled with its parsed tag value, and a non-struct input yields the
struct-required error. -/
theorem applyDefaults_fills_zero_tagged_supported_fields_witness :
    ApplyDefaults (.strukt testStructFields) =
      .value (.ok (.strukt
        [⟨"Field1", true, "test", .vstr "test"⟩,
         ⟨"Field2", true, "10", .vint 10⟩,
         ⟨"Field3", true, "true", .vbool true⟩,
         ⟨"Field4", true, "3.14", .vfloat 314 100⟩])) ∧
    ApplyDefaults (.nonStruct (.vint 7)) = .value (.error .nonStruct) := by
  have h := applyDefaults_fills_zero_tagged_supported_fields testStructFields ?_
  · exact ⟨h.1.trans (by rfl), h.2 (.vint 7)⟩
  · intro f hf
    simp only [testStructFields, List.mem_cons, List.not_mem_nil, or_false] at hf
    rcases hf with rfl | rfl | rfl | rfl <;> exact fun _ _ _ => ⟨_, rfl⟩

/-- C10: for the zero value of `GetAccountBalanceRequest` (its `*bool` fields
`NativeFirst` and `OnlyWhitelisted` left nil, as the public
`GetAccountBalances` path passes it), the defaulting step inside `post`
panics in `setFieldValue`'s unsupported-field-type branch instead of
returning an error, aborting the call — for every environment in which the
rate limiter grants the attempt a token, whatever the backend would answer. -/
theorem post_panics_on_nil_pointer_defaults {Resp : Type}
    (env : AttemptEnv GoInput Resp) (method : String)
    (blockchain pageToken walletAddress : String) (pageSize : Int)
    (hacq : env.acquire = .ok) :
    post ApplyDefaults method
      (.strukt (getAccountBalanceRequestFields blockchain none none pageSize
        pageToken walletAddress)) env =
      .panicked "ankr: setFieldValue: unsupported field type: ptr" := by
  unfold post
  rw [hacq]
  rfl

/-- C10 witness: a concrete `ankr_getAccountBalance` call with the two nil
`*bool` fields panics in the defaulting step. -/
theorem post_panics_on_nil_pointer_defaults_witness :
    post ApplyDefaults "ankr_getAccountBalance"
      (.strukt (getAccountBalanceRequestFields "eth" none none 10 ""
        "0xd8dA6BF26964aF9D7eEd9e03E53415D37aA96045"))
      (⟨.ok, none, fun _ => .envelope ⟨JSONRPC, 1, (), none⟩⟩ :
        AttemptEnv GoInput Unit) =
      .panicked "ankr: setFieldValue: unsupported field type: ptr" :=
  post_panics_on_nil_pointer_defaults
    ⟨.ok, none, fun _ => .envelope ⟨JSONRPC, 1, (), none⟩⟩
    "ankr_getAccountBalance" "eth" ""
    "0xd8dA6BF26964aF9D7eEd9e03E53415D37aA96045" 10 rfl

end Ankr
